import Mathlib

/-!
Shallow embedding of the task-automation core in `src/tasks.py` (class
`TaskManager`): the persisted task store, the store-mutating operations
(`add_task`, `remove_task`, `toggle_task`), the execution entry point
(`execute_task`) and the three task bodies (`execute_file_cleanup`,
`execute_file_backup`, `execute_alert`).

Modelling conventions:
* A Python task dict becomes the structure `Task`.  The core keys are
  dedicated fields; the keyword parameters (`source_dir`, `backup_dir`,
  `days_old`, `file_pattern`, `message`) are `Option` fields — `none`
  models the key being absent from the dict, so reading a required
  parameter of an absent key models the `KeyError` the Python line raises.
* `self.tasks` (a Python dict, insertion ordered, unique keys) becomes an
  association list `TaskMap` with the usual dict operations
  (`dictLookup`, `dictSet`, `dictUpdate`, `dictRemove`, `containsKey`).
* The pair of the in-memory dict and the JSON file written by
  `save_tasks` becomes `MState`; `saveCount` counts the calls to
  `save_tasks`, so "the persisted document was not rewritten" is
  `saveCount` staying unchanged.
* The outside world (clock, filesystem, log file) becomes `Env`:
  `nowIso` is `datetime.now().isoformat()`, `nowTime` is `time.time()`,
  `nowStamp` is the `strftime` timestamp, `cleanupGlob` is the result of
  `source_path.glob(file_pattern)` (each entry with its `is_file()`
  status, `st_mtime`, and whether `unlink()` succeeds), `cleanupFails`
  (resp. `backupFails`) is `some msg` when an operation inside the
  function body raises an exception with text `msg`, and
  `alertWriteFails` is `some msg` when opening/writing the alert log
  raises.
* Exceptions crossing a function boundary are `Except.error msg`;
  functions whose Python source catches every exception return plain
  values.
* The `schedule` library side of the program is modelled only by
  `scheduleRegisters` (the syntactic condition under which
  `schedule_tasks` reaches a `.do(job)` registration) and `activeNames`
  (the names it registers jobs for); `restart_scheduler` mutates no task
  state and is omitted from `MState`.
-/

namespace Tasks

/-- One task record, i.e. one value of the Python dict `self.tasks`. -/
structure Task where
  type : String
  schedule : String
  created : String
  enabled : Bool
  last_run : Option String
  last_result : Option String
  source_dir : Option String
  backup_dir : Option String
  days_old : Option Int
  file_pattern : Option String
  message : Option String
  deriving Repr, DecidableEq

/-- The task mapping `self.tasks`: name to task, unique keys, insertion order. -/
abbrev TaskMap := List (String × Task)

/-- One entry of the glob result in `execute_file_cleanup`: its name, whether
`is_file()` holds, its `st_mtime`, and whether `unlink()` succeeds on it. -/
structure FsEntry where
  name : String
  isFile : Bool
  mtime : Int
  unlinkOk : Bool
  deriving Repr, DecidableEq

/-- The external world visible to one `execute_task` call: the clock and the
filesystem/log outcomes of the operations the bodies perform. -/
structure Env where
  nowIso : String
  nowTime : Int
  nowStamp : String
  cleanupDirExists : Bool
  cleanupGlob : List FsEntry
  cleanupFails : Option String
  backupSrcExists : Bool
  backupFails : Option String
  alertWriteFails : Option String
  deriving Repr, DecidableEq

/-- Manager state: the in-memory dict `self.tasks`, the content of the
persisted JSON document, and how many times `save_tasks` ran. -/
structure MState where
  tasks : TaskMap
  persisted : TaskMap
  saveCount : Nat
  deriving Repr, DecidableEq

/-- Python `name in self.tasks`. -/
def containsKey (m : TaskMap) (k : String) : Bool :=
  match m with
  | [] => false
  | p :: rest => p.1 == k || containsKey rest k

/-- Python `self.tasks[name]` as a partial read (`none` models `KeyError`). -/
def dictLookup (m : TaskMap) (k : String) : Option Task :=
  match m with
  | [] => none
  | p :: rest => if p.1 = k then some p.2 else dictLookup rest k

/-- Python `self.tasks[name] = task`: replace in place if the key exists,
else append. -/
def dictSet (m : TaskMap) (k : String) (v : Task) : TaskMap :=
  match m with
  | [] => [(k, v)]
  | p :: rest => if p.1 = k then (k, v) :: rest else p :: dictSet rest k v

/-- In-place mutation of the task stored under key `k`, modelling an
assignment to a field of `self.tasks[name]`. -/
def dictUpdate (m : TaskMap) (k : String) (f : Task → Task) : TaskMap :=
  match m with
  | [] => []
  | p :: rest => (if p.1 = k then (p.1, f p.2) else p) :: dictUpdate rest k f

/-- Python `del self.tasks[name]`. -/
def dictRemove (m : TaskMap) (k : String) : TaskMap :=
  match m with
  | [] => []
  | p :: rest => if p.1 = k then dictRemove rest k else p :: dictRemove rest k

/-- The dict invariant: keys are unique. -/
def keysNodup (m : TaskMap) : Prop :=
  (m.map Prod.fst).Nodup

/-- TaskManager.load_tasks.  The argument models the persisted document:
`none` when `os.path.exists` is false, `some (Except.error e)` when the file
exists but `json.load` raises `JSONDecodeError` with text `e`, and
`some (Except.ok m)` when it parses to the mapping `m`. -/
def load_tasks (doc : Option (Except String TaskMap)) : TaskMap :=
  match doc with
  | none => []
  | some (Except.error _) => []
  | some (Except.ok m) => m

/-- TaskManager.save_tasks: rewrite the persisted document with the full
in-memory mapping. -/
def save_tasks (st : MState) : MState :=
  { st with persisted := st.tasks, saveCount := st.saveCount + 1 }

/-- The task dict built by TaskManager.add_task from its arguments and the
keyword parameters (`last_result` key absent, hence `none`). -/
def newTask (env : Env) (task_type schedule_time : String)
    (source_dir backup_dir : Option String) (days_old : Option Int)
    (file_pattern message : Option String) : Task :=
  { type := task_type
    schedule := schedule_time
    created := env.nowIso
    enabled := true
    last_run := none
    last_result := none
    source_dir := source_dir
    backup_dir := backup_dir
    days_old := days_old
    file_pattern := file_pattern
    message := message }

/-- TaskManager.add_task: store the new task under `name`, save, return True. -/
def add_task (env : Env) (name task_type schedule_time : String)
    (source_dir backup_dir : Option String) (days_old : Option Int)
    (file_pattern message : Option String) (st : MState) : Bool × MState :=
  let task := newTask env task_type schedule_time source_dir backup_dir
      days_old file_pattern message
  let st1 := { st with tasks := dictSet st.tasks name task }
  (true, save_tasks st1)

/-- TaskManager.remove_task: delete and save when present, else return False. -/
def remove_task (name : String) (st : MState) : Bool × MState :=
  if containsKey st.tasks name then
    (true, save_tasks { st with tasks := dictRemove st.tasks name })
  else
    (false, st)

/-- The flip performed by `toggle_task` on one task record. -/
def flipEnabled (t : Task) : Task :=
  { t with enabled := !t.enabled }

/-- TaskManager.toggle_task: negate `enabled` and save when present, else
return False. -/
def toggle_task (name : String) (st : MState) : Bool × MState :=
  if containsKey st.tasks name then
    (true, save_tasks { st with tasks := dictUpdate st.tasks name flipEnabled })
  else
    (false, st)

/-- The loop body of `execute_file_cleanup`: the glob entries that end up
unlinked — regular files whose `st_mtime` is below the cutoff
`time.time() - days_old * 24 * 60 * 60` and whose `unlink()` succeeds. -/
def cleanupDeleted (env : Env) (days_old : Int) : List FsEntry :=
  let cutoff := env.nowTime - days_old * 24 * 60 * 60
  env.cleanupGlob.filter
    (fun f => f.isFile && decide (f.mtime < cutoff) && f.unlinkOk)

/-- TaskManager.execute_file_cleanup.  Returns the result string together
with the names of the files actually unlinked.  `env.cleanupGlob` models
`source_path.glob(file_pattern)`; `env.cleanupFails = some e` models an
exception inside the `try` block (caught, turned into an `Error:` string). -/
def execute_file_cleanup (env : Env) (source_dir : String) (days_old : Int) :
    String × List String :=
  match env.cleanupFails with
  | some e => ("Error: " ++ e, [])
  | none =>
    if !env.cleanupDirExists then
      ("Directory " ++ source_dir ++ " does not exist", [])
    else
      let deleted := cleanupDeleted env days_old
      ("Deleted " ++ toString deleted.length ++ " files from " ++ source_dir,
        deleted.map FsEntry.name)

/-- TaskManager.execute_file_backup.  `env.backupFails = some e` models an
exception from `mkdir`/`copytree` inside the `try` block (caught). -/
def execute_file_backup (env : Env) (source_dir backup_dir : String) : String :=
  if !env.backupSrcExists then
    "Source directory " ++ source_dir ++ " does not exist"
  else
    match env.backupFails with
    | some e => "Error: " ++ e
    | none =>
      "Backup completed: " ++ source_dir ++ " -> " ++ backup_dir ++
        "/backup_" ++ env.nowStamp

/-- TaskManager.execute_alert.  The function has no try/except: a failure of
the append to `web_alerts.log` (modelled by `env.alertWriteFails`) raises
past the function boundary, hence the `Except` result. -/
def execute_alert (env : Env) (message : String) : Except String String :=
  match env.alertWriteFails with
  | some e => Except.error e
  | none => Except.ok ("Alert logged: " ++ message)

/-- The body of the `try` block of `execute_task` that computes `result`:
the type dispatch, the parameter reads (a missing required key raises
`KeyError`, modelled as `Except.error`), and the call to the matching body.
An unrecognized type leaves `result` at its initial value `""`. -/
def runBody (env : Env) (task : Task) : Except String String :=
  if task.type = "file_cleanup" then
    match task.source_dir with
    | none => Except.error "source_dir"
    | some d =>
      Except.ok (execute_file_cleanup env d (task.days_old.getD 7)).1
  else if task.type = "file_backup" then
    match task.source_dir with
    | none => Except.error "source_dir"
    | some s =>
      match task.backup_dir with
      | none => Except.error "backup_dir"
      | some b => Except.ok (execute_file_backup env s b)
  else if task.type = "alert" then
    match task.message with
    | none => Except.error "message"
    | some m => execute_alert env m
  else
    Except.ok ""

/-- TaskManager.execute_task.  A disabled task short-circuits to `False`
with no state change.  Otherwise the body runs: on a normal return the
fields `last_run` and `last_result` are written and the store saved, and
the call returns `True`; on an exception the handler writes only
`last_result` (prefixed `Error: `), saves, and returns `False`.  In either
case nothing is raised to the caller. -/
def execute_task (env : Env) (name : String) (task : Task) (st : MState) :
    Bool × MState :=
  if !task.enabled then
    (false, st)
  else
    match runBody env task with
    | Except.ok result =>
      (true, save_tasks { st with
        tasks := dictUpdate st.tasks name (fun t =>
          { t with last_run := some env.nowIso, last_result := some result }) })
    | Except.error e =>
      (false, save_tasks { st with
        tasks := dictUpdate st.tasks name (fun t =>
          { t with last_result := some ("Error: " ++ e) }) })

/-- The syntactic condition under which `schedule_tasks` reaches a
`.do(job)` line for a schedule string: an `every ...` form whose second
word ends in `m` or `h` or equals `day`, or any string containing `:`. -/
def scheduleRegisters (s : String) : Bool :=
  if s.startsWith "every" then
    match (s.splitOn " ").filter (fun w => !w.isEmpty) with
    | _ :: interval :: _ =>
      interval.endsWith "m" || interval.endsWith "h" || interval == "day"
    | _ => false
  else
    s.contains ':'

/-- The names `schedule_tasks` registers recurrence jobs for: enabled tasks
whose schedule string reaches a registration. -/
def activeNames (m : TaskMap) : List String :=
  (m.filter (fun p => p.2.enabled && scheduleRegisters p.2.schedule)).map
    (fun p => p.1)

/-! Dictionary lemmas used by the claim proofs. -/

theorem dictLookup_dictUpdate (m : TaskMap) (k : String) (f : Task → Task) :
    dictLookup (dictUpdate m k f) k = Option.map f (dictLookup m k) := by
  induction m with
  | nil => rfl
  | cons p rest ih =>
    by_cases h : p.1 = k
    · simp [dictUpdate, dictLookup, h]
    · simp [dictUpdate, dictLookup, h, ih]

theorem containsKey_dictUpdate (m : TaskMap) (k q : String) (f : Task → Task) :
    containsKey (dictUpdate m k f) q = containsKey m q := by
  induction m with
  | nil => rfl
  | cons p rest ih =>
    by_cases h : p.1 = k
    · simp [dictUpdate, containsKey, h, ih]
    · simp [dictUpdate, containsKey, h, ih]

theorem dictUpdate_dictUpdate_self (m : TaskMap) (k : String) (f : Task → Task)
    (hf : ∀ t, f (f t) = t) :
    dictUpdate (dictUpdate m k f) k f = m := by
  induction m with
  | nil => rfl
  | cons p rest ih =>
    by_cases h : p.1 = k
    · simp [dictUpdate, h, hf, ih]
      rw [← h]
    · simp [dictUpdate, h, ih]

theorem flipEnabled_flipEnabled (t : Task) : flipEnabled (flipEnabled t) = t := by
  cases t
  simp [flipEnabled]

theorem keys_dictSet (m : TaskMap) (k : String) (v : Task)
    (h : containsKey m k = true) :
    (dictSet m k v).map Prod.fst = m.map Prod.fst := by
  induction m with
  | nil => simp [containsKey] at h
  | cons p rest ih =>
    by_cases hp : p.1 = k
    · simp [dictSet, hp]
    · have hr : containsKey rest k = true := by
        simpa [containsKey, hp] using h
      simp [dictSet, hp, ih hr]

theorem length_dictSet (m : TaskMap) (k : String) (v : Task)
    (h : containsKey m k = true) :
    (dictSet m k v).length = m.length := by
  have hk := congrArg List.length (keys_dictSet m k v h)
  simpa using hk

theorem dictLookup_dictSet (m : TaskMap) (k : String) (v : Task) :
    dictLookup (dictSet m k v) k = some v := by
  induction m with
  | nil => simp [dictSet, dictLookup]
  | cons p rest ih =>
    by_cases hp : p.1 = k
    · simp [dictSet, dictLookup, hp]
    · simp [dictSet, dictLookup, hp, ih]

/-! Concrete sample data used by witnesses and counterexamples. -/

/-- An enabled alert task, never run. -/
def taskAlertA : Task :=
  { type := "alert"
    schedule := "every 1h"
    created := "2024-01-01T00:00:00"
    enabled := true
    last_run := none
    last_result := none
    source_dir := none
    backup_dir := none
    days_old := none
    file_pattern := none
    message := some "hi" }

/-- A disabled variant of the alert task. -/
def taskDisabled : Task :=
  { taskAlertA with enabled := false }

/-- A task of an unrecognized type. -/
def taskUnknown : Task :=
  { taskAlertA with type := "mystery", message := none }

/-- An environment where every operation succeeds. -/
def envOk : Env :=
  { nowIso := "2024-01-02T03:04:05"
    nowTime := 1000
    nowStamp := "20240102_030405"
    cleanupDirExists := true
    cleanupGlob := []
    cleanupFails := none
    backupSrcExists := true
    backupFails := none
    alertWriteFails := none }

/-- An environment where appending to the alert log raises. -/
def envAlertFail : Env :=
  { envOk with alertWriteFails := some "disk full" }

/-- A regular file whose modification time equals the current clock. -/
def entryNow : FsEntry :=
  { name := "a.txt", isFile := true, mtime := 1000, unlinkOk := true }

/-- A regular file strictly older than the current clock. -/
def entryOld : FsEntry :=
  { name := "old.txt", isFile := true, mtime := 500, unlinkOk := true }

/-- A cleanup environment whose glob result is the single fresh file. -/
def envCleanup : Env :=
  { envOk with cleanupGlob := [entryNow] }

/-- A cleanup environment whose glob result holds one old and one fresh file. -/
def envCleanup2 : Env :=
  { envOk with cleanupGlob := [entryOld, entryNow] }

/-- Store state holding only the enabled alert task under name `a`. -/
def stA : MState :=
  { tasks := [("a", taskAlertA)], persisted := [("a", taskAlertA)], saveCount := 0 }

/-- Store state holding only the disabled task under name `d`. -/
def stD : MState :=
  { tasks := [("d", taskDisabled)], persisted := [("d", taskDisabled)], saveCount := 0 }

/-- Store state holding only the unknown-type task under name `u`. -/
def stU : MState :=
  { tasks := [("u", taskUnknown)], persisted := [("u", taskUnknown)], saveCount := 0 }

/-- Claim C1, counterexample: an enabled alert task whose body raises (the
append to the log fails) makes `execute_task` return `false`, not `true` as
the claim states. -/
theorem C1_counterexample :
    taskAlertA.enabled = true
    ∧ runBody envAlertFail taskAlertA = Except.error "disk full"
    ∧ (execute_task envAlertFail "a" taskAlertA stA).1 = false :=
  ⟨rfl, rfl, rfl⟩

/-- Claim C1, amended: for every enabled task whose body raises an exception
during execution, `execute_task` returns `false`, records the failure text
prefixed `Error: ` in the `last_result` of the task, saves the store, and —
being a total function into `Bool × MState` — never propagates the exception
to the caller. -/
theorem C1_amended_thm (env : Env) (name : String) (task : Task) (st : MState)
    (e : String) (hen : task.enabled = true)
    (hb : runBody env task = Except.error e) :
    execute_task env name task st
      = (false, save_tasks { st with
          tasks := dictUpdate st.tasks name (fun t =>
            { t with last_result := some ("Error: " ++ e) }) }) := by
  simp [execute_task, hen, hb]

/-- Claim C1, witness: the amended statement evaluated on the failing alert
task. -/
theorem C1_witness :
    taskAlertA.enabled = true
    ∧ runBody envAlertFail taskAlertA = Except.error "disk full"
    ∧ execute_task envAlertFail "a" taskAlertA stA
        = (false, save_tasks { stA with
            tasks := dictUpdate stA.tasks "a" (fun t =>
              { t with last_result := some ("Error: " ++ "disk full") }) }) :=
  ⟨rfl, rfl, C1_amended_thm envAlertFail "a" taskAlertA stA "disk full" rfl rfl⟩

/-- Claim C2, counterexample: an execution attempt of an enabled task whose
body raises leaves `last_run` at its prior value `none` — the failure path
does not update `last_run`, contrary to the claim. -/
theorem C2_counterexample :
    taskAlertA.enabled = true
    ∧ runBody envAlertFail taskAlertA = Except.error "disk full"
    ∧ Option.map Task.last_run
        (dictLookup (execute_task envAlertFail "a" taskAlertA stA).2.tasks "a")
      = some none :=
  ⟨rfl, rfl, rfl⟩

/-- Claim C2, amended: for every enabled task in the store, `execute_task`
sets `last_run` to the time of the attempt exactly when the body returns
normally (which includes bodies that caught an internal failure and returned
error text); when the body raises, only `last_result` is rewritten and
`last_run` keeps its prior value. -/
theorem C2_amended_thm (env : Env) (name : String) (task : Task) (st : MState)
    (hmem : dictLookup st.tasks name = some task) (hen : task.enabled = true) :
    (∀ r, runBody env task = Except.ok r →
      dictLookup (execute_task env name task st).2.tasks name
        = some { task with last_run := some env.nowIso, last_result := some r })
    ∧ (∀ e, runBody env task = Except.error e →
      dictLookup (execute_task env name task st).2.tasks name
        = some { task with last_result := some ("Error: " ++ e) }) := by
  constructor
  · intro r hb
    simp [execute_task, hen, hb, save_tasks, dictLookup_dictUpdate, hmem]
  · intro e hb
    simp [execute_task, hen, hb, save_tasks, dictLookup_dictUpdate, hmem]

/-- Claim C2, witness: the amended statement evaluated on the failing alert
task, showing `last_run` untouched on the raise path. -/
theorem C2_witness :
    dictLookup stA.tasks "a" = some taskAlertA
    ∧ taskAlertA.enabled = true
    ∧ dictLookup (execute_task envAlertFail "a" taskAlertA stA).2.tasks "a"
        = some { taskAlertA with last_result := some ("Error: " ++ "disk full") } :=
  ⟨rfl, rfl,
    (C2_amended_thm envAlertFail "a" taskAlertA stA rfl rfl).2 "disk full" rfl⟩

/-- Claim C3, counterexample: the alert body has no exception handler — a
failing append to the log file raises past the body boundary instead of
being returned as an `Error: ` string. -/
theorem C3_counterexample :
    execute_alert envAlertFail "hi" = Except.error "disk full" :=
  rfl

/-- Claim C3, amended: the cleanup and backup bodies never throw past their
boundary — an exception inside them is returned as a result string prefixed
`Error: ` (a missing source directory yields a plain descriptive message
without the prefix) — but the alert body propagates a log-write failure to
its caller as an exception, succeeding only when the write succeeds. -/
theorem C3_amended_thm (env : Env) (d b m e : String) (dold : Int) :
    (env.cleanupFails = some e →
      (execute_file_cleanup env d dold).1 = "Error: " ++ e)
    ∧ (env.backupSrcExists = true → env.backupFails = some e →
      execute_file_backup env d b = "Error: " ++ e)
    ∧ (env.alertWriteFails = some e →
      execute_alert env m = Except.error e)
    ∧ (env.alertWriteFails = none →
      execute_alert env m = Except.ok ("Alert logged: " ++ m)) := by
  refine ⟨?_, ?_, ?_, ?_⟩
  · intro h; simp [execute_file_cleanup, h]
  · intro hs h; simp [execute_file_backup, hs, h]
  · intro h; simp [execute_alert, h]
  · intro h; simp [execute_alert, h]

/-- Claim C3, witness: the amended statement evaluated on an environment
whose log write fails. -/
theorem C3_witness :
    envAlertFail.alertWriteFails = some "disk full"
    ∧ execute_alert envAlertFail "ping" = Except.error "disk full" :=
  ⟨rfl, (C3_amended_thm envAlertFail "d" "b" "ping" "disk full" 0).2.2.1 rfl⟩

/-- Claim C4: `load_tasks` is a total function (it raises nothing) and
returns the empty mapping both when the persisted document is absent and
when it is present but unparseable, discarding the prior content. -/
theorem C4_thm :
    load_tasks none = []
    ∧ (∀ e : String, load_tasks (some (Except.error e)) = []) :=
  ⟨rfl, fun _ => rfl⟩

/-- Claim C4, witness: the malformed-document case evaluated on concrete
corrupted text. -/
theorem C4_witness :
    load_tasks (some (Except.error "corrupted text")) = [] :=
  C4_thm.2 "corrupted text"

/-- Claim C5: executing a disabled task returns `false` and leaves the whole
manager state — every field of every task, the persisted document, and the
save counter — exactly as it was. -/
theorem C5_thm (env : Env) (name : String) (task : Task) (st : MState)
    (h : task.enabled = false) :
    execute_task env name task st = (false, st) := by
  simp [execute_task, h]

/-- Claim C5, witness: the statement evaluated on the disabled sample task. -/
theorem C5_witness :
    taskDisabled.enabled = false
    ∧ execute_task envOk "d" taskDisabled stD = (false, stD) :=
  ⟨rfl, C5_thm envOk "d" taskDisabled stD rfl⟩

/-- Claim C6: every mutating operation that signals success leaves the
persisted document equal to the in-memory mapping — `add_task` always,
`remove_task` and `toggle_task` whenever they return `true`. -/
theorem C6_thm (env : Env) (name task_type schedule_time : String)
    (sd bd : Option String) (dold : Option Int) (fp msg : Option String)
    (st : MState) :
    ((add_task env name task_type schedule_time sd bd dold fp msg st).2.persisted
      = (add_task env name task_type schedule_time sd bd dold fp msg st).2.tasks)
    ∧ ((remove_task name st).1 = true →
      (remove_task name st).2.persisted = (remove_task name st).2.tasks)
    ∧ ((toggle_task name st).1 = true →
      (toggle_task name st).2.persisted = (toggle_task name st).2.tasks) := by
  refine ⟨rfl, ?_, ?_⟩ <;>
    by_cases hc : containsKey st.tasks name <;>
      simp [remove_task, toggle_task, save_tasks, hc]

/-- Claim C6, witness: the statement evaluated on the sample store, removing
the present task `a`. -/
theorem C6_witness :
    (remove_task "a" stA).1 = true
    ∧ (remove_task "a" stA).2.persisted = (remove_task "a" stA).2.tasks :=
  ⟨rfl, (C6_thm envOk "a" "t" "s" none none none none none stA).2.1 rfl⟩

/-- Claim C7: on a store with unique keys, adding a task under an already
present name succeeds, keeps the mapping size and key uniqueness (the prior
definition is overwritten in place), and stores the freshly built task with
`enabled = true`, `created` equal to the current time, and no `last_run`. -/
theorem C7_thm (env : Env) (name task_type schedule_time : String)
    (sd bd : Option String) (dold : Option Int) (fp msg : Option String)
    (st : MState) (hmem : containsKey st.tasks name = true)
    (hnd : keysNodup st.tasks) :
    (add_task env name task_type schedule_time sd bd dold fp msg st).1 = true
    ∧ (add_task env name task_type schedule_time sd bd dold fp msg st).2.tasks.length
        = st.tasks.length
    ∧ keysNodup (add_task env name task_type schedule_time sd bd dold fp msg st).2.tasks
    ∧ dictLookup
        (add_task env name task_type schedule_time sd bd dold fp msg st).2.tasks name
        = some (newTask env task_type schedule_time sd bd dold fp msg)
    ∧ (newTask env task_type schedule_time sd bd dold fp msg).enabled = true
    ∧ (newTask env task_type schedule_time sd bd dold fp msg).created = env.nowIso
    ∧ (newTask env task_type schedule_time sd bd dold fp msg).last_run = none := by
  refine ⟨rfl, ?_, ?_, ?_, rfl, rfl, rfl⟩
  · simp [add_task, save_tasks, length_dictSet st.tasks name _ hmem]
  · simpa [add_task, save_tasks, keysNodup,
      keys_dictSet st.tasks name _ hmem] using hnd
  · simp [add_task, save_tasks, dictLookup_dictSet]

/-- Claim C7, witness: the statement evaluated on the sample store, re-adding
under the present name `a`. -/
theorem C7_witness :
    containsKey stA.tasks "a" = true
    ∧ keysNodup stA.tasks
    ∧ (add_task envOk "a" "alert" "10:00" none none none none (some "m2") stA).1 = true
    ∧ (add_task envOk "a" "alert" "10:00" none none none none (some "m2") stA).2.tasks.length
        = stA.tasks.length
    ∧ dictLookup
        (add_task envOk "a" "alert" "10:00" none none none none (some "m2") stA).2.tasks "a"
        = some (newTask envOk "alert" "10:00" none none none none (some "m2")) := by
  have h := C7_thm envOk "a" "alert" "10:00" none none none none (some "m2") stA
    rfl (by simp [keysNodup, stA])
  exact ⟨rfl, by simp [keysNodup, stA], h.1, h.2.1, h.2.2.2.1⟩

/-- Claim C8: toggling a name twice leaves the in-memory task mapping — and
with it the set of names that `schedule_tasks` would register — exactly as it
was (double toggle is the identity, on `enabled` and on every other field),
and toggling an absent name returns `false`. -/
theorem C8_thm (name : String) (st : MState) :
    (toggle_task name (toggle_task name st).2).2.tasks = st.tasks
    ∧ activeNames (toggle_task name (toggle_task name st).2).2.tasks
        = activeNames st.tasks
    ∧ (containsKey st.tasks name = false → (toggle_task name st).1 = false) := by
  have hmain : (toggle_task name (toggle_task name st).2).2.tasks = st.tasks := by
    by_cases hc : containsKey st.tasks name
    · simp [toggle_task, save_tasks, hc, containsKey_dictUpdate,
        dictUpdate_dictUpdate_self _ _ _ flipEnabled_flipEnabled]
    · simp [toggle_task, hc]
  refine ⟨hmain, by rw [hmain], ?_⟩
  intro hc
  simp [toggle_task, hc]

/-- Claim C8, witness: the statement evaluated on the sample store at the
absent name `zz`. -/
theorem C8_witness :
    containsKey stA.tasks "zz" = false
    ∧ (toggle_task "zz" (toggle_task "zz" stA).2).2.tasks = stA.tasks
    ∧ (toggle_task "zz" stA).1 = false :=
  ⟨rfl, (C8_thm "zz" stA).1, (C8_thm "zz" stA).2.2 rfl⟩

/-- Claim C9, counterexample: with `days_old = 0` the cutoff equals the
current time and the age test is strict, so a matching regular file whose
modification time equals the current time is not deleted — the run reports
zero deletions, refuting deletion regardless of age. -/
theorem C9_counterexample :
    envCleanup.cleanupFails = none
    ∧ envCleanup.cleanupDirExists = true
    ∧ envCleanup.cleanupGlob = [entryNow]
    ∧ entryNow.isFile = true
    ∧ entryNow.unlinkOk = true
    ∧ entryNow.mtime = envCleanup.nowTime
    ∧ execute_file_cleanup envCleanup "d" 0 = ("Deleted 0 files from d", []) :=
  ⟨rfl, rfl, rfl, rfl, rfl, rfl, rfl⟩

/-- The deleted set at `days_old = 0`, assuming every unlink succeeds: the
regular files among the glob entries whose modification time is strictly
below the current time. -/
theorem cleanupDeleted_zero (env : Env)
    (hu : ∀ f ∈ env.cleanupGlob, f.unlinkOk = true) :
    cleanupDeleted env 0
      = env.cleanupGlob.filter
          (fun f => f.isFile && decide (f.mtime < env.nowTime)) := by
  unfold cleanupDeleted
  apply List.filter_congr
  intro f hf
  simp [hu f hf]

/-- Claim C9, amended: for an existing `source_dir` in a run where no
exception occurs and every unlink succeeds, cleanup with `days_old = 0`
deletes exactly the matching regular files whose modification time is
strictly before the current time (a file stamped at or after now survives),
and with an empty match set it deletes zero files and reports success with a
zero count. -/
theorem C9_amended_thm (env : Env) (dir : String)
    (hf : env.cleanupFails = none) (hd : env.cleanupDirExists = true)
    (hu : ∀ f ∈ env.cleanupGlob, f.unlinkOk = true) :
    (execute_file_cleanup env dir 0).2
      = (env.cleanupGlob.filter
          (fun f => f.isFile && decide (f.mtime < env.nowTime))).map FsEntry.name
    ∧ (env.cleanupGlob = [] →
      execute_file_cleanup env dir 0 = ("Deleted 0 files from " ++ dir, [])) := by
  constructor
  · simp [execute_file_cleanup, hf, hd, cleanupDeleted_zero env hu]
  · intro hg
    simp [execute_file_cleanup, hf, hd, cleanupDeleted, hg]
    rfl

/-- Claim C9, witness: the amended statement evaluated on a glob result with
one old and one fresh file: exactly the old one is deleted. -/
theorem C9_witness :
    envCleanup2.cleanupFails = none
    ∧ envCleanup2.cleanupDirExists = true
    ∧ (∀ f ∈ envCleanup2.cleanupGlob, f.unlinkOk = true)
    ∧ (execute_file_cleanup envCleanup2 "d" 0).2
        = (envCleanup2.cleanupGlob.filter
            (fun f => f.isFile && decide (f.mtime < envCleanup2.nowTime))).map
              FsEntry.name :=
  ⟨rfl, rfl, by decide, (C9_amended_thm envCleanup2 "d" rfl rfl (by decide)).1⟩

/-- Claim C10: executing an enabled task of an unrecognized type returns
`true`, stamps `last_run` with the current time, stores the empty string as
`last_result`, and writes the store through — a silent no-op success. -/
theorem C10_thm (env : Env) (name : String) (task : Task) (st : MState)
    (hmem : dictLookup st.tasks name = some task) (hen : task.enabled = true)
    (h1 : task.type ≠ "file_cleanup") (h2 : task.type ≠ "file_backup")
    (h3 : task.type ≠ "alert") :
    (execute_task env name task st).1 = true
    ∧ dictLookup (execute_task env name task st).2.tasks name
        = some { task with last_run := some env.nowIso, last_result := some "" }
    ∧ (execute_task env name task st).2.persisted
        = (execute_task env name task st).2.tasks := by
  have hb : runBody env task = Except.ok "" := by
    simp [runBody, h1, h2, h3]
  refine ⟨?_, ?_, ?_⟩ <;>
    simp [execute_task, hen, hb, save_tasks, dictLookup_dictUpdate, hmem]

/-- Claim C10, witness: the statement evaluated on the sample task of type
`mystery`. -/
theorem C10_witness :
    dictLookup stU.tasks "u" = some taskUnknown
    ∧ taskUnknown.enabled = true
    ∧ taskUnknown.type = "mystery"
    ∧ (execute_task envOk "u" taskUnknown stU).1 = true
    ∧ dictLookup (execute_task envOk "u" taskUnknown stU).2.tasks "u"
        = some { taskUnknown with
            last_run := some envOk.nowIso, last_result := some "" } := by
  have h := C10_thm envOk "u" taskUnknown stU rfl rfl
    (by decide) (by decide) (by decide)
  exact ⟨rfl, rfl, rfl, h.1, h.2.1⟩

end Tasks
